import Mathlib

/-!
# Shallow embedding of the Żabka shop pipeline

This file embeds the logic of the two scripts of the repository:

* `zabka_fetcher.py` — the tabular pipeline: query escalation, name
  filtering, geometry normalization, record building, sorting and export;
* `zabka_gpt.py` — the map pipeline: major-road edge filtering and the
  point/polygon shop layer combination.

External collaborators (the geo data source, the boundary resolver,
shapely geometry accessors, pandas I/O) are modelled as data: a feature
carries its geometry tag together with the values the coordinate
accessors (`geom.x`, `geom.y`, `geom.centroid.x`, `geom.centroid.y`)
would return, all represented as rationals.  Attribute maps are
association lists of Python values: a stored value is either a real string
or the NaN marker pandas keeps in a row whose tag is null while other rows
of the frame have the column; a key absent from the list models a column
absent from the whole frame, the only case in which `Series.get` falls
back to its default.  A feature whose geometry access raises in the
per-feature loop is modelled by `geometry = none`.
-/

/-! ## Road filter of `zabka_gpt.py` (lines 20–23) -/

/-- The `highway` attribute of an edge: a single classification string or a
list of classification strings, as delivered by the road-network query. -/
inductive HighwayCls where
  | single (s : String)
  | multi (l : List String)
deriving DecidableEq, Repr

/-- `important_highways = ['motorway', 'trunk', 'primary', 'secondary','tertiary']` -/
def important_highways : List String :=
  ["motorway", "trunk", "primary", "secondary", "tertiary"]

/-- One element of the generator inside the Python filter
`any(hw in x if isinstance(x, list) else [x] for hw in important_highways)`.
By Python operator precedence the conditional expression is
`(hw in x) if isinstance(x, list) else [x]`: when `x` is a list the element
is the membership test `hw in x`; when `x` is a single string the element is
the list `[x]`, whose truth value under `any` is its non-emptiness. -/
def highwayGenElem (x : HighwayCls) (hw : String) : Bool :=
  match x with
  | .multi l => l.contains hw
  | .single s => !([s] : List String).isEmpty

/-- The predicate selecting `edges_major` from `edges`: the lambda applied to
an edge's `highway` value, i.e. `any(...)` over `important_highways`. -/
def edges_major_keeps (x : HighwayCls) : Bool :=
  important_highways.any (highwayGenElem x)

/-- The allow-list test the specification describes for road filtering: keep
the edge iff its classification set intersects `important_highways`, a single
classification being treated as the one-element list. -/
def edges_major_keeps_spec (x : HighwayCls) : Bool :=
  match x with
  | .multi l => important_highways.any (fun hw => l.contains hw)
  | .single s => important_highways.contains s

/-! ## Data model of the tabular pipeline (`zabka_fetcher.py`) -/

/-- A feature geometry, carrying its type tag and the values the coordinate
accessors would return: `x`/`y` (read only on the `"Point"` branch) and the
centroid coordinates (read on every other branch).  Coordinates are modelled
as rationals: the accessors of concrete source geometries return finite
floating-point numbers. -/
structure Geometry where
  geomType : String
  x : Rat
  y : Rat
  centroidX : Rat
  centroidY : Rat
deriving DecidableEq, Repr

/-- A Python value held in an attribute column of a `GeoDataFrame` row:
either a real string, or the float NaN that pandas stores in a row whose
tag is null while other rows of the frame have the column. -/
inductive PyStr where
  | str (s : String)
  | nan
deriving DecidableEq, Repr

/-- A geographic feature: its geometry and its attribute map.  `geometry =
none` models a feature on which geometry access raises inside the
per-feature loop (the `except` branch of lines 79–118).  A key paired
with `PyStr.nan` models a null tag of this row; a key absent from the list
models a column absent from the whole frame. -/
structure Feature where
  geometry : Option Geometry
  attrs : List (String × PyStr)
deriving DecidableEq, Repr

/-- Attribute lookup; `none` when the column is absent from the frame. -/
def getAttr (f : Feature) (k : String) : Option PyStr :=
  f.attrs.lookup k

/-- `shop.get(k, d)` on a `GeoDataFrame` row: the stored value when the
column is in the row's index — a real string, or the NaN marker of a null
tag, which `get` returns as it is — and the default only when the column
is absent from the frame. -/
def shopGet (f : Feature) (k d : String) : PyStr :=
  match getAttr f k with
  | some v => v
  | none => .str d

/-- Python truthiness of the value: a string is truthy iff it is nonempty;
the float NaN is truthy. -/
def pyTruthy : PyStr → Bool
  | .str s => s != ""
  | .nan => true

/-- How an f-string (or `astype(str)`) renders the value: a string as
itself, NaN as the text `"nan"`. -/
def pyFormat : PyStr → String
  | .str s => s
  | .nan => "nan"

/-! ## Name filter (lines 40–41 and 59–60) -/

/-- Case folding as the case-insensitive regex `'Żabka|żabka'` sees a
character: `Ż` folds to `ż`, ASCII letters fold via `toLower`. -/
def casefoldChar (c : Char) : Char :=
  if c = 'Ż' then 'ż' else c.toLower

/-- `pat` occurs as a contiguous sublist of `s`. -/
def listContainsSub (pat s : List Char) : Bool :=
  (List.range (s.length + 1)).any (fun i => pat.isPrefixOf (s.drop i))

/-- `str.contains('Żabka|żabka', case=False)` on an already-stringified
name: the folded name contains the folded pattern `żabka`. -/
def matchesZabka (s : String) : Bool :=
  listContainsSub ("żabka".toList) (s.toList.map casefoldChar)

/-- The boolean mask
`pois['name'].astype(str).str.contains('Żabka|żabka', case=False, na=False)`
applied to one feature.  A missing (or null) name is rendered by
`astype(str)` as the string `"nan"`, which does not match the pattern. -/
def featureMatches (f : Feature) : Bool :=
  matchesZabka (pyFormat ((getAttr f "name").getD .nan))

/-! ## Query escalation (lines 45–72) -/

/-- The three tag filters issued to the geo data source, in escalation
order: `{shop: convenience, name: Żabka}`, then `{name: [Żabka, żabka]}`,
then `{shop: True}`. -/
inductive QueryKind where
  | primaryTags
  | nameVariants
  | allShops
deriving DecidableEq, Repr

/-- The escalation of lines 45–62, over a data source `src` that either
returns a feature list or raises (`Except.error`, the `except` branch of
the surrounding `try`).  Returns the final `zabka_shops` together with the
queries issued, in order: the name-variant query runs only when the
filtered primary result is empty, and the all-shops query only when the
name-variant result is empty too. -/
def shopFilterEscalation (src : QueryKind → Except String (List Feature)) :
    Except String (List Feature × List QueryKind) := do
  let pois ← src .primaryTags
  let zabka_shops := pois.filter featureMatches
  if zabka_shops.length = 0 then
    let pois_alt ← src .nameVariants
    if pois_alt.length = 0 then
      let all_shops ← src .allShops
      pure (all_shops.filter featureMatches, [.primaryTags, .nameVariants, .allShops])
    else
      pure (pois_alt, [.primaryTags, .nameVariants])
  else
    pure (zabka_shops, [.primaryTags])

/-- The diagnostic hints printed by the zero-results branch (lines 68–72). -/
def zeroResultHints : List String :=
  ["1. Limited data in OpenStreetMap for this area",
   "2. Different naming conventions in the database",
   "3. Shops tagged differently than expected"]

/-- Outcome of the fetch-and-filter stage: an exception during a query
aborts (lines 63–65); an empty result after the full escalation is the
terminal zero-results report with hints (lines 67–73); otherwise the
feature set proceeds to record building. -/
inductive FetchOutcome where
  | fetchError (msg : String)
  | zeroResults (hints : List String)
  | proceed (shops : List Feature)
deriving DecidableEq, Repr

/-- Lines 34–73: run the escalation and classify its outcome. -/
def filterPhase (src : QueryKind → Except String (List Feature)) : FetchOutcome :=
  match shopFilterEscalation src with
  | .error m => .fetchError m
  | .ok (shops, _) =>
      if shops.length = 0 then .zeroResults zeroResultHints else .proceed shops

/-! ## Geometry normalizer and record builder (lines 79–118) -/

/-- Lines 85–93: a point's own coordinates; the centroid for `Polygon`,
`MultiPolygon`, and every other geometry type. -/
def normalizeGeometry (geom : Geometry) : Rat × Rat :=
  if geom.geomType = "Point" then
    (geom.x, geom.y)
  else if geom.geomType = "Polygon" ∨ geom.geomType = "MultiPolygon" then
    (geom.centroidX, geom.centroidY)
  else
    (geom.centroidX, geom.centroidY)

/-- The flat record appended to `shop_data` (lines 109–114), fields in the
source's order.  The address and name hold whatever Python value the
extraction produced — normally a string, but a NaN can flow through. -/
structure ShopRecord where
  geographical_longitude : Rat
  geographical_latitude : Rat
  address : PyStr
  name : PyStr
deriving DecidableEq, Repr

/-- Lines 102–107: the f-string of street and house number when both are
truthy, the street value itself when only it is, else the placeholder.
NaN is truthy, so a null tag takes the truthy branches — rendered `"nan"`
by the f-string, or passed through as the bare value by the elif. -/
def composeAddress (street house_number : PyStr) : PyStr :=
  if pyTruthy street && pyTruthy house_number then
    .str (pyFormat street ++ " " ++ pyFormat house_number)
  else if pyTruthy street then
    street
  else
    .str "Adres niedostępny"

/-- One iteration of the loop of lines 79–118: `none` models the `except`
branch (geometry access raised, the feature is skipped); otherwise the
built record.  `shop.get('name', 'Żabka')` and the two address attributes
go through `shopGet`. -/
def processFeature (f : Feature) : Option ShopRecord :=
  match f.geometry with
  | none => none
  | some geom =>
      let lon := (normalizeGeometry geom).1
      let lat := (normalizeGeometry geom).2
      let name := shopGet f "name" "Żabka"
      let street := shopGet f "addr:street" ""
      let house_number := shopGet f "addr:housenumber" ""
      some { geographical_longitude := lon
             geographical_latitude := lat
             address := composeAddress street house_number
             name := name }

/-- The whole loop: one record per feature that processed without error,
in input order; raising features are skipped and the loop continues. -/
def processBatch (fs : List Feature) : List ShopRecord :=
  fs.filterMap processFeature

/-! ## Tabular sink (lines 120–151) -/

/-- `df.sort_values('geographical_longitude')`: sort ascending by
longitude. -/
def sortRecords (rs : List ShopRecord) : List ShopRecord :=
  rs.mergeSort (fun a b => a.geographical_longitude ≤ b.geographical_longitude)

/-- Outcome of lines 120–151: an empty `shop_data` returns before any file
is created; otherwise the sorted frame is written, and if `to_excel`
raises, the failure is reported and the sorted frame is returned to the
caller (`return df`). -/
inductive ExportOutcome where
  | emptyResult
  | savedFile (rows : List ShopRecord)
  | saveFailed (rows : List ShopRecord)
deriving DecidableEq, Repr

/-- Lines 120–151 as a function of the collected records and of whether the
spreadsheet write succeeds. -/
def exportPhase (shop_data : List ShopRecord) (writeSucceeds : Bool) : ExportOutcome :=
  if shop_data.length = 0 then .emptyResult
  else
    let df := sortRecords shop_data
    if writeSucceeds then .savedFile df else .saveFailed df

/-- Whether an outcome wrote the spreadsheet file. -/
def writesFile : ExportOutcome → Bool
  | .savedFile _ => true
  | _ => false

/-! ## Shop layer of the map pipeline (`zabka_gpt.py` lines 33–43) -/

/-- Lines 33–43 applied to the geometry column of `zabka_raw`: the `Point`
rows are kept as they are, the `Polygon` rows have their geometry replaced
by the centroid, and the two sets are concatenated.  Rows of any other
geometry type (`MultiPolygon` included) appear in neither selection. -/
def centroidPoint (g : Geometry) : Geometry :=
  { geomType := "Point"
    x := g.centroidX
    y := g.centroidY
    centroidX := g.centroidX
    centroidY := g.centroidY }

/-- `zabka_combined`: concatenation of `zabka_points` and the
centroid-reduced `zabka_polygons`. -/
def zabka_combined (raw : List Geometry) : List Geometry :=
  raw.filter (fun g => g.geomType = "Point")
    ++ (raw.filter (fun g => g.geomType = "Polygon")).map centroidPoint

/-! ## Concrete data used by witnesses and counterexamples -/

/-- A point geometry near Wrocław's market square. -/
def ptGeom : Geometry :=
  { geomType := "Point", x := 17, y := 51, centroidX := 17, centroidY := 51 }

/-- A polygon geometry with centroid (3, 4). -/
def polyGeom : Geometry :=
  { geomType := "Polygon", x := 0, y := 0, centroidX := 3, centroidY := 4 }

/-- A multi-polygon geometry with centroid (1, 2). -/
def mpGeom : Geometry :=
  { geomType := "MultiPolygon", x := 0, y := 0, centroidX := 1, centroidY := 2 }

/-- A feature with string-valued street and house number tags, and no name
column. -/
def rynekFeature : Feature :=
  { geometry := some ptGeom
    attrs := [("addr:street", .str "Rynek"), ("addr:housenumber", .str "5")] }

/-- The record `processFeature` builds from `rynekFeature`. -/
def rynekRecord : ShopRecord :=
  { geographical_longitude := 17, geographical_latitude := 51
    address := .str "Rynek 5", name := .str "Żabka" }

/-- A feature whose geometry access raises: the loop must skip it. -/
def badFeature : Feature :=
  { geometry := none, attrs := [("name", .str "Żabka")] }

/-- A feature with no name column at all. -/
def noNameFeature : Feature :=
  { geometry := some ptGeom, attrs := [("shop", .str "convenience")] }

/-- A feature whose name column holds a null value. -/
def nullNameFeature : Feature :=
  { geometry := some ptGeom, attrs := [("name", .nan)] }

/-- A feature both of whose address tags are null (NaN in the frame). -/
def nanAddrFeature : Feature :=
  { geometry := some ptGeom
    attrs := [("name", .str "Żabka"), ("addr:street", .nan),
              ("addr:housenumber", .nan)] }

/-- A feature with a street string and a null house number. -/
def rynekNanFeature : Feature :=
  { geometry := some ptGeom
    attrs := [("name", .str "Żabka"), ("addr:street", .str "Rynek"),
              ("addr:housenumber", .nan)] }

/-- A data source all of whose queries succeed with an empty result. -/
def srcEmpty : QueryKind → Except String (List Feature) := fun _ => .ok []

/-- Two distinct records sharing one longitude. -/
def recA : ShopRecord :=
  { geographical_longitude := 0, geographical_latitude := 0
    address := .str "A", name := .str "a" }

/-- Second record at the same longitude as `recA`. -/
def recB : ShopRecord :=
  { geographical_longitude := 0, geographical_latitude := 0
    address := .str "B", name := .str "b" }

/-! ## Theorems -/

/-- Claim C1 (code bug): the list form of the `highway` attribute is
filtered by intersection with the allow-list as the claim states, but the
single-string form is not: by Python operator precedence the generator
element for a non-list value is the non-empty (hence truthy) list `[x]`,
so `edges_major` keeps every single-classification edge, including a
minor-road one such as `"residential"`, which the claim says is
excluded. -/
theorem C1_road_filter_single_form_kept :
    edges_major_keeps (.single "residential") = true ∧
    edges_major_keeps_spec (.single "residential") = false ∧
    edges_major_keeps (.multi ["residential", "primary"]) = true ∧
    edges_major_keeps (.multi ["residential", "service"]) = false ∧
    (∀ l, edges_major_keeps (.multi l) = edges_major_keeps_spec (.multi l)) ∧
    (∀ s, edges_major_keeps (.single s) = true) := by
  refine ⟨by decide, by decide, by decide, by decide, ?_, ?_⟩
  · intro l
    have hfun : highwayGenElem (HighwayCls.multi l) = fun hw => l.contains hw := by
      funext hw; rfl
    simp [edges_major_keeps, edges_major_keeps_spec, hfun]
  · intro s
    simp [edges_major_keeps, highwayGenElem, important_highways]

/-- Claim C2 (counterexample): in the map pipeline a multi-polygon feature
contributes no normalized point at all — `zabka_combined` selects only the
`Point` and `Polygon` rows, so a one-feature layer whose geometry is a
`MultiPolygon` combines to the empty layer instead of one centroid
point. -/
theorem C2_multipolygon_dropped_on_map :
    mpGeom.geomType = "MultiPolygon" ∧ zabka_combined [mpGeom] = [] := by
  decide

/-- Disjoint split of the Point-or-Polygon count. -/
theorem length_filter_point_or_polygon (raw : List Geometry) :
    (raw.filter (fun h => h.geomType = "Point" ∨ h.geomType = "Polygon")).length =
      (raw.filter (fun h => h.geomType = "Point")).length +
        (raw.filter (fun h => h.geomType = "Polygon")).length := by
  induction raw with
  | nil => rfl
  | cons g t ih =>
      by_cases hP : g.geomType = "Point" <;> by_cases hQ : g.geomType = "Polygon"
      · rw [hP] at hQ; exact absurd hQ (by decide)
      · simp [List.filter_cons, hP, hQ] at ih ⊢; omega
      · simp [List.filter_cons, hP, hQ] at ih ⊢; omega
      · simpa [List.filter_cons, hP, hQ] using ih

/-- Claim C2 (amended): in the tabular pipeline the normalizer returns the
point's own coordinates for a `Point` geometry and the centroid coordinates
for every other geometry type; in the map pipeline exactly the `Point` and
`Polygon` features each contribute one point (polygons via their centroid),
while `MultiPolygon` and any other geometry types are dropped. -/
theorem C2_normalizer_and_map_layer (g : Geometry) (raw : List Geometry) :
    normalizeGeometry g =
      (if g.geomType = "Point" then (g.x, g.y) else (g.centroidX, g.centroidY)) ∧
    (zabka_combined raw).length =
      (raw.filter (fun h => h.geomType = "Point" ∨ h.geomType = "Polygon")).length ∧
    (∀ h ∈ raw, h.geomType = "Polygon" → centroidPoint h ∈ zabka_combined raw) := by
  refine ⟨?_, ?_, ?_⟩
  · by_cases hp : g.geomType = "Point" <;> simp [normalizeGeometry, hp]
  · rw [length_filter_point_or_polygon]
    simp [zabka_combined]
  · intro h hmem hPoly
    have hf : h ∈ raw.filter (fun g => g.geomType = "Polygon") := by
      simp [List.mem_filter, hmem, hPoly]
    exact List.mem_append_right _ (List.mem_map_of_mem _ hf)

/-- Witness for the amended C2 at concrete inputs: a point keeps its own
coordinates, and a polygon's centroid point lands in the combined layer. -/
theorem C2_normalizer_and_map_layer_witness :
    normalizeGeometry ptGeom = (ptGeom.x, ptGeom.y) ∧
    centroidPoint polyGeom ∈ zabka_combined [polyGeom] := by
  constructor
  · have h := (C2_normalizer_and_map_layer ptGeom []).1
    simpa [ptGeom] using h
  · exact (C2_normalizer_and_map_layer polyGeom [polyGeom]).2.2 polyGeom
      (by simp) rfl

/-- Claim C3 (code bug): a null address tag defeats the claimed
composition.  In the source frame a missing tag of one row is NaN when
other rows have the column; `Series.get` returns that NaN rather than the
falsy default, NaN is truthy, and the f-string renders it `"nan"`.  A shop
whose two address tags are null therefore gets the address `"nan nan"`,
and a null house number alone gives `"Rynek nan"` — not the placeholder
and street-only addresses the claim (and the placeholder's own purpose,
address unavailable) requires.  On genuinely string-valued attributes the
composition does produce the three claimed shapes. -/
theorem C3_nan_address_bug :
    (processFeature nanAddrFeature).map ShopRecord.address =
      some (.str "nan nan") ∧
    (processFeature rynekNanFeature).map ShopRecord.address =
      some (.str "Rynek nan") ∧
    (processFeature nanAddrFeature).map ShopRecord.address ≠
      some (.str "Adres niedostępny") ∧
    (∀ s n : String,
      composeAddress (.str s) (.str n) = .str (s ++ " " ++ n) ∨
      composeAddress (.str s) (.str n) = .str s ∨
      composeAddress (.str s) (.str n) = .str "Adres niedostępny") := by
  refine ⟨by decide, by decide, by decide, ?_⟩
  intro s n
  by_cases hs : s = ""
  · subst hs
    right; right
    simp [composeAddress, pyTruthy]
  · by_cases hn : n = ""
    · subst hn
      right; left
      simp [composeAddress, pyTruthy, bne_iff_ne, hs]
    · left
      simp [composeAddress, pyTruthy, pyFormat, bne_iff_ne, hs, hn]

/-- Reduction of the Except bind on a success value. -/
theorem except_bind_ok {ε α β : Type} (x : α) (f : α → Except ε β) :
    (Except.ok x >>= f) = f x := rfl

/-- Claim C4: the escalation is a strict three-step fallback: with a
non-empty primary result only the primary query runs; with an empty primary
result the name-variant query runs before anything is reported; with that
empty too the all-shops query runs; and when all three are empty the phase
ends in the zero-results report carrying the diagnostic hints, which is not
the abort state used for query exceptions. -/
theorem C4_escalation_fallback (src : QueryKind → Except String (List Feature))
    (p a s : List Feature)
    (hp : src .primaryTags = .ok p) (ha : src .nameVariants = .ok a)
    (hs : src .allShops = .ok s) :
    ((p.filter featureMatches).length ≠ 0 →
      shopFilterEscalation src = .ok (p.filter featureMatches, [.primaryTags])) ∧
    ((p.filter featureMatches).length = 0 → a.length ≠ 0 →
      shopFilterEscalation src = .ok (a, [.primaryTags, .nameVariants])) ∧
    ((p.filter featureMatches).length = 0 → a.length = 0 →
      shopFilterEscalation src =
        .ok (s.filter featureMatches, [.primaryTags, .nameVariants, .allShops]) ∧
      ((s.filter featureMatches).length = 0 →
        filterPhase src = .zeroResults zeroResultHints ∧
        ∀ m, filterPhase src ≠ .fetchError m)) := by
  refine ⟨?_, ?_, ?_⟩
  · intro h1
    simp only [shopFilterEscalation, hp, except_bind_ok]
    rw [if_neg h1]
    rfl
  · intro h1 h2
    simp only [shopFilterEscalation, hp, ha, except_bind_ok]
    rw [if_pos h1, if_neg h2]
    rfl
  · intro h1 h2
    have hesc : shopFilterEscalation src =
        .ok (s.filter featureMatches, [.primaryTags, .nameVariants, .allShops]) := by
      simp only [shopFilterEscalation, hp, ha, hs, except_bind_ok]
      rw [if_pos h1, if_pos h2]
      rfl
    refine ⟨hesc, fun h3 => ?_⟩
    have hph : filterPhase src = .zeroResults zeroResultHints := by
      simp only [filterPhase, hesc]
      rw [if_pos h3]
    exact ⟨hph, fun m => by rw [hph]; exact fun hcontra => FetchOutcome.noConfusion hcontra⟩

/-- Witness for C4: a source whose three queries all succeed empty runs all
three queries in order and terminates in the zero-results report. -/
theorem C4_escalation_fallback_witness :
    shopFilterEscalation srcEmpty =
      .ok ([], [QueryKind.primaryTags, .nameVariants, .allShops]) ∧
    filterPhase srcEmpty = .zeroResults zeroResultHints := by
  have h := (C4_escalation_fallback srcEmpty [] [] [] rfl rfl rfl).2.2 rfl rfl
  exact ⟨h.1, (h.2 rfl).1⟩

/-- Claim C5: a feature whose processing raises is alone skipped — the
batch result is unchanged by such a feature — and the batch yields exactly
one record per feature that processes without error, each such record
appearing in the output. -/
theorem C5_skip_on_error (fs : List Feature) (f : Feature)
    (h : processFeature f = none) :
    processBatch (f :: fs) = processBatch fs ∧
    (processBatch fs).length = fs.countP (fun g => (processFeature g).isSome) ∧
    ∀ g ∈ fs, ∀ r, processFeature g = some r → r ∈ processBatch fs := by
  refine ⟨by simp [processBatch, List.filterMap_cons, h], ?_, ?_⟩
  · induction fs with
    | nil => rfl
    | cons g t ih =>
        cases hg : processFeature g <;>
          simp [processBatch, List.filterMap_cons, hg, List.countP_cons] at ih ⊢ <;>
          omega
  · intro g hg r hr
    exact List.mem_filterMap.mpr ⟨g, hg, hr⟩

/-- Witness for C5: prepending a raising feature leaves the batch output
unchanged, and a one-good-feature batch yields exactly one record. -/
theorem C5_skip_on_error_witness :
    processBatch [badFeature, rynekFeature] = processBatch [rynekFeature] ∧
    (processBatch [rynekFeature]).length = 1 := by
  have h := C5_skip_on_error [rynekFeature] badFeature rfl
  exact ⟨h.1, by rw [h.2.1]; rfl⟩

/-- Claim C6 (counterexample): the tabular sink's output is not a function
of the input record multiset — two orderings of the same two-record
multiset, the records sharing a longitude but differing elsewhere, sort to
different row sequences. -/
theorem C6_tie_order_depends_on_input :
    ((([recA, recB] : List ShopRecord) : Multiset ShopRecord) =
      (([recB, recA] : List ShopRecord) : Multiset ShopRecord)) ∧
    sortRecords [recA, recB] ≠ sortRecords [recB, recA] := by
  constructor
  · exact Multiset.coe_eq_coe.mpr (List.Perm.swap recB recA [])
  · have e1 : sortRecords [recA, recB] = [recA, recB] :=
      List.mergeSort_of_sorted (by decide)
    have e2 : sortRecords [recB, recA] = [recB, recA] :=
      List.mergeSort_of_sorted (by decide)
    rw [e1, e2]
    decide

/-- Claim C6 (amended): the tabular sink sorts the records ascending by
longitude before writing — the written rows are non-decreasing in longitude
and are a permutation of the input records — and the output is a
deterministic function of the input record sequence, though records with
equal longitudes keep an input-order-dependent relative order. -/
theorem C6_sorted_and_perm (rs : List ShopRecord) :
    (sortRecords rs).Pairwise
      (fun x y => x.geographical_longitude ≤ y.geographical_longitude) ∧
    (sortRecords rs).Perm rs := by
  constructor
  · have h := @List.sorted_mergeSort ShopRecord
      (fun x y : ShopRecord =>
        decide (x.geographical_longitude ≤ y.geographical_longitude))
      (fun x y z hab hbc => by
        simp only [decide_eq_true_eq] at hab hbc ⊢
        exact le_trans hab hbc)
      (fun x y => by
        simp only [decide_eq_true_eq, Bool.or_eq_true]
        exact le_total _ _)
      rs
    simpa [sortRecords] using h
  · exact List.mergeSort_perm rs _

/-- Claim C7: exporting an empty record list writes no file and reports the
empty-result status, for either outcome of the downstream writer. -/
theorem C7_empty_export (w : Bool) :
    exportPhase [] w = .emptyResult ∧ writesFile (exportPhase [] w) = false := by
  cases w <;> exact ⟨rfl, rfl⟩

/-- Claim C8: every record the builder produces has its longitude and
latitude set, and they are exactly the (finite, rational-modelled)
coordinates the normalizer extracts from the source geometry — the point's
own coordinates or the centroid's — whatever the geometry type. -/
theorem C8_coords_present_from_geometry (f : Feature) (geom : Geometry)
    (r : ShopRecord) (hg : f.geometry = some geom)
    (hr : processFeature f = some r) :
    (r.geographical_longitude, r.geographical_latitude) = normalizeGeometry geom ∧
    ((r.geographical_longitude = geom.x ∧ r.geographical_latitude = geom.y) ∨
      (r.geographical_longitude = geom.centroidX ∧
        r.geographical_latitude = geom.centroidY)) := by
  simp only [processFeature, hg, Option.some.injEq] at hr
  subst hr
  refine ⟨rfl, ?_⟩
  by_cases hp : geom.geomType = "Point"
  · left
    constructor <;> simp [normalizeGeometry, hp]
  · right
    constructor <;> simp [normalizeGeometry, hp]

/-- Witness for C8: the concrete point feature gets the normalizer's
coordinates. -/
theorem C8_coords_present_witness :
    (rynekRecord.geographical_longitude, rynekRecord.geographical_latitude) =
      normalizeGeometry ptGeom :=
  (C8_coords_present_from_geometry rynekFeature ptGeom rynekRecord rfl (by decide)).1

/-- Claim C9: when the spreadsheet write fails on a non-empty record list,
the outcome reports the failure and hands back the in-memory (sorted)
record collection, a permutation of the collected records — the data is not
discarded. -/
theorem C9_export_failure_returns_records (shop_data : List ShopRecord)
    (h : shop_data ≠ []) :
    exportPhase shop_data false = .saveFailed (sortRecords shop_data) ∧
    (sortRecords shop_data).Perm shop_data := by
  have hlen : shop_data.length ≠ 0 := fun h0 => h (List.length_eq_zero.mp h0)
  constructor
  · simp only [exportPhase]
    rw [if_neg hlen]
    rfl
  · exact List.mergeSort_perm shop_data _

/-- Witness for C9: a failed write on a one-record list returns that
record. -/
theorem C9_export_failure_witness :
    exportPhase [rynekRecord] false = .saveFailed (sortRecords [rynekRecord]) :=
  (C9_export_failure_returns_records [rynekRecord] (List.cons_ne_nil _ _)).1

/-- Claim C10: a feature whose name is missing — the column absent or the
value null — is a non-match for the case-insensitive substring mask:
stringification renders the missing value as `"nan"`, which does not
match, so the feature is excluded from any filtered set and filtering is
total (no error). -/
theorem C10_missing_name_excluded (f : Feature) (fs : List Feature)
    (h : getAttr f "name" = none ∨ getAttr f "name" = some .nan) :
    featureMatches f = false ∧ f ∉ fs.filter featureMatches := by
  have hm : featureMatches f = false := by
    unfold featureMatches
    rcases h with h | h <;> rw [h] <;> decide
  refine ⟨hm, fun hmem => ?_⟩
  have hT := (List.mem_filter.mp hmem).2
  rw [hm] at hT
  exact Bool.noConfusion hT

/-- Witness for C10: the feature lacking a name column is excluded from
the filter of the one-element list holding it, and the null-named feature
is likewise a non-match. -/
theorem C10_missing_name_excluded_witness :
    (featureMatches noNameFeature = false ∧
      noNameFeature ∉ List.filter featureMatches [noNameFeature]) ∧
    featureMatches nullNameFeature = false :=
  ⟨C10_missing_name_excluded noNameFeature [noNameFeature] (Or.inl (by decide)),
   (C10_missing_name_excluded nullNameFeature [] (Or.inr (by decide))).1⟩
